import Mathlib

/-!
Verification of the multi-network adapter subsystem of the karibu
repository (network registry, network factory/service, Hedera adapter,
Ethereum adapter).

The TypeScript sources are shallowly embedded:
* JS strings are Lean `String`s; where character-level reasoning is
  needed (address formatting) they are `List Char`, and
  `String.prototype.toLowerCase` is modelled by the ASCII case map
  `Char.toLower` applied character-wise.
* A JS `Map` is an insertion-ordered association list; `set` replaces
  in place or appends, `delete` removes the first matching entry.
* Effectful SDK calls (RPC connections, Hedera queries, gas
  estimation) are oracles passed in explicitly as "world" records;
  a thrown JS exception is an `Except`/`Option` error which the
  enclosing `try/catch` of the embedded function then handles, so a
  function whose every exception is caught is total.
* JS numbers are exact rationals/naturals (no floating-point
  rounding is modelled).
-/

/-! ## Data model (src/app/types/network.ts) -/

inductive NetworkType where
  | hedera
  | ethereum
deriving DecidableEq, Repr

inductive NetworkEnvironment where
  | testnet
  | mainnet
deriving DecidableEq, Repr

inductive NetworkStatus where
  | connected
  | connecting
  | disconnected
  | error
deriving DecidableEq, Repr

structure HederaSubConfig where
  mirrorNodeUrl : String
  operatorId : Option String := none
  operatorKey : Option String := none
deriving DecidableEq, Repr

structure EthereumSubConfig where
  blockExplorerApiUrl : Option String := none
  apiKey : Option String := none
deriving DecidableEq, Repr

structure NetworkConfig where
  id : String
  name : String
  type : NetworkType
  environment : NetworkEnvironment
  isEnabled : Bool
  rpcUrl : String
  explorerUrl : String
  chainId : Option Nat := none
  hederaConfig : Option HederaSubConfig := none
  ethereumConfig : Option EthereumSubConfig := none
deriving DecidableEq, Repr

/-- JS `String.prototype.includes`: substring containment. -/
def jsIncludes (s sub : String) : Bool :=
  decide (sub.data <:+: s.data)

/-! ## DEFAULT_NETWORKS (src/app/utils/networks/network-registry.ts, lines 6-553) -/

def DEFAULT_NETWORKS : List NetworkConfig := [
  { id := "hedera-testnet", name := "Hedera Testnet", type := .hedera,
    environment := .testnet, isEnabled := true,
    rpcUrl := "https://testnet.hashio.io/api",
    explorerUrl := "https://hashscan.io/testnet", chainId := some 296,
    hederaConfig := some { mirrorNodeUrl := "https://testnet.mirrornode.hedera.com/api/v1" } },
  { id := "hedera-mainnet", name := "Hedera Mainnet", type := .hedera,
    environment := .mainnet, isEnabled := true,
    rpcUrl := "https://mainnet.hashio.io/api",
    explorerUrl := "https://hashscan.io/mainnet", chainId := some 295,
    hederaConfig := some { mirrorNodeUrl := "https://mainnet-public.mirrornode.hedera.com/api/v1" } },
  { id := "ethereum-sepolia", name := "Sepolia Testnet", type := .ethereum,
    environment := .testnet, isEnabled := true,
    rpcUrl := "https://rpc.sepolia.org",
    explorerUrl := "https://sepolia.etherscan.io", chainId := some 11155111,
    ethereumConfig := some { blockExplorerApiUrl := some "https://api-sepolia.etherscan.io/api" } },
  { id := "ethereum-goerli", name := "Goerli Testnet", type := .ethereum,
    environment := .testnet, isEnabled := true,
    rpcUrl := "https://rpc.ankr.com/eth_goerli",
    explorerUrl := "https://goerli.etherscan.io", chainId := some 5,
    ethereumConfig := some { blockExplorerApiUrl := some "https://api-goerli.etherscan.io/api" } },
  { id := "polygon-mainnet", name := "Polygon", type := .ethereum,
    environment := .mainnet, isEnabled := true,
    rpcUrl := "https://polygon-rpc.com",
    explorerUrl := "https://polygonscan.com", chainId := some 137,
    ethereumConfig := some { blockExplorerApiUrl := some "https://api.polygonscan.com/api" } },
  { id := "optimism-mainnet", name := "Optimism", type := .ethereum,
    environment := .mainnet, isEnabled := true,
    rpcUrl := "https://mainnet.optimism.io",
    explorerUrl := "https://optimistic.etherscan.io", chainId := some 10,
    ethereumConfig := some { blockExplorerApiUrl := some "https://api-optimistic.etherscan.io/api" } },
  { id := "arbitrum-one", name := "Arbitrum One", type := .ethereum,
    environment := .mainnet, isEnabled := true,
    rpcUrl := "https://arb1.arbitrum.io/rpc",
    explorerUrl := "https://arbiscan.io", chainId := some 42161,
    ethereumConfig := some { blockExplorerApiUrl := some "https://api.arbiscan.io/api" } },
  { id := "base-mainnet", name := "Base", type := .ethereum,
    environment := .mainnet, isEnabled := true,
    rpcUrl := "https://mainnet.base.org",
    explorerUrl := "https://basescan.org", chainId := some 8453,
    ethereumConfig := some { blockExplorerApiUrl := some "https://api.basescan.org/api" } },
  { id := "zora-mainnet", name := "Zora", type := .ethereum,
    environment := .mainnet, isEnabled := true,
    rpcUrl := "https://rpc.zora.energy",
    explorerUrl := "https://explorer.zora.energy", chainId := some 7777777,
    ethereumConfig := some { blockExplorerApiUrl := some "https://explorer.zora.energy/api" } },
  { id := "optimism-sepolia", name := "Optimism Sepolia", type := .ethereum,
    environment := .testnet, isEnabled := true,
    rpcUrl := "https://sepolia.optimism.io",
    explorerUrl := "https://sepolia-optimistic.etherscan.io", chainId := some 11155420,
    ethereumConfig := some { blockExplorerApiUrl := some "https://api-sepolia-optimistic.etherscan.io/api" } },
  { id := "arbitrum-sepolia", name := "Arbitrum Sepolia", type := .ethereum,
    environment := .testnet, isEnabled := true,
    rpcUrl := "https://sepolia-rollup.arbitrum.io/rpc",
    explorerUrl := "https://sepolia.arbiscan.io", chainId := some 421614,
    ethereumConfig := some { blockExplorerApiUrl := some "https://api-sepolia.arbiscan.io/api" } },
  { id := "base-sepolia", name := "Base Sepolia", type := .ethereum,
    environment := .testnet, isEnabled := true,
    rpcUrl := "https://sepolia.base.org",
    explorerUrl := "https://sepolia.basescan.org", chainId := some 84532,
    ethereumConfig := some { blockExplorerApiUrl := some "https://api-sepolia.basescan.org/api" } },
  { id := "zora-sepolia", name := "Zora Sepolia", type := .ethereum,
    environment := .testnet, isEnabled := true,
    rpcUrl := "https://sepolia.rpc.zora.energy",
    explorerUrl := "https://sepolia.explorer.zora.energy", chainId := some 999999,
    ethereumConfig := some { blockExplorerApiUrl := some "https://sepolia.explorer.zora.energy/api" } },
  { id := "polygon-amoy", name := "Polygon Amoy", type := .ethereum,
    environment := .testnet, isEnabled := true,
    rpcUrl := "https://rpc-amoy.polygon.technology",
    explorerUrl := "https://amoy.polygonscan.com", chainId := some 80002,
    ethereumConfig := some { blockExplorerApiUrl := some "https://api-amoy.polygonscan.com/api" } },
  { id := "zksync-mainnet", name := "zkSync", type := .ethereum,
    environment := .mainnet, isEnabled := true,
    rpcUrl := "https://mainnet.era.zksync.io",
    explorerUrl := "https://explorer.zksync.io", chainId := some 324,
    ethereumConfig := some { blockExplorerApiUrl := some "https://api.explorer.zksync.io/api" } },
  { id := "zksync-sepolia", name := "zkSync Sepolia", type := .ethereum,
    environment := .testnet, isEnabled := true,
    rpcUrl := "https://sepolia.era.zksync.dev",
    explorerUrl := "https://sepolia.explorer.zksync.io", chainId := some 300,
    ethereumConfig := some { blockExplorerApiUrl := some "https://api-sepolia.explorer.zksync.io/api" } },
  { id := "scroll-mainnet", name := "Scroll", type := .ethereum,
    environment := .mainnet, isEnabled := true,
    rpcUrl := "https://rpc.scroll.io",
    explorerUrl := "https://scrollscan.com", chainId := some 534352,
    ethereumConfig := some { blockExplorerApiUrl := some "https://api.scrollscan.com/api" } },
  { id := "scroll-sepolia", name := "Scroll Sepolia", type := .ethereum,
    environment := .testnet, isEnabled := true,
    rpcUrl := "https://sepolia-rpc.scroll.io",
    explorerUrl := "https://sepolia.scrollscan.com", chainId := some 534351,
    ethereumConfig := some { blockExplorerApiUrl := some "https://api-sepolia.scrollscan.com/api" } },
  { id := "linea-mainnet", name := "Linea", type := .ethereum,
    environment := .mainnet, isEnabled := true,
    rpcUrl := "https://rpc.linea.build",
    explorerUrl := "https://lineascan.build", chainId := some 59144,
    ethereumConfig := some { blockExplorerApiUrl := some "https://api.lineascan.build/api" } },
  { id := "linea-sepolia", name := "Linea Sepolia", type := .ethereum,
    environment := .testnet, isEnabled := true,
    rpcUrl := "https://rpc.sepolia.linea.build",
    explorerUrl := "https://sepolia.lineascan.build", chainId := some 59141,
    ethereumConfig := some { blockExplorerApiUrl := some "https://api-sepolia.lineascan.build/api" } },
  { id := "ethereum-mainnet", name := "Ethereum", type := .ethereum,
    environment := .mainnet, isEnabled := true,
    rpcUrl := "https://rpc.ankr.com/eth",
    explorerUrl := "https://etherscan.io", chainId := some 1,
    ethereumConfig := some { blockExplorerApiUrl := some "https://api.etherscan.io/api" } },
  { id := "lisk-mainnet", name := "Lisk", type := .ethereum,
    environment := .mainnet, isEnabled := true,
    rpcUrl := "https://rpc.api.lisk.com",
    explorerUrl := "https://blockscout.lisk.com", chainId := some 1135,
    ethereumConfig := some { blockExplorerApiUrl := some "https://blockscout.lisk.com/api" } },
  { id := "lisk-sepolia", name := "Lisk Sepolia", type := .ethereum,
    environment := .testnet, isEnabled := true,
    rpcUrl := "https://rpc.sepolia-api.lisk.com",
    explorerUrl := "https://sepolia-blockscout.lisk.com", chainId := some 4202,
    ethereumConfig := some { blockExplorerApiUrl := some "https://sepolia-blockscout.lisk.com/api" } },
  { id := "blast-mainnet", name := "Blast", type := .ethereum,
    environment := .mainnet, isEnabled := true,
    rpcUrl := "https://rpc.blast.io",
    explorerUrl := "https://blastscan.io", chainId := some 81457,
    ethereumConfig := some { blockExplorerApiUrl := some "https://api.blastscan.io/api" } },
  { id := "blast-sepolia", name := "Blast Sepolia", type := .ethereum,
    environment := .testnet, isEnabled := true,
    rpcUrl := "https://sepolia.blast.io",
    explorerUrl := "https://sepolia.blastscan.io", chainId := some 168587773,
    ethereumConfig := some { blockExplorerApiUrl := some "https://api-sepolia.blastscan.io/api" } },
  { id := "mode-mainnet", name := "Mode", type := .ethereum,
    environment := .mainnet, isEnabled := true,
    rpcUrl := "https://mainnet.mode.network",
    explorerUrl := "https://explorer.mode.network", chainId := some 34443,
    ethereumConfig := some { blockExplorerApiUrl := some "https://api.explorer.mode.network/api" } },
  { id := "mode-sepolia", name := "Mode Sepolia", type := .ethereum,
    environment := .testnet, isEnabled := true,
    rpcUrl := "https://sepolia.mode.network",
    explorerUrl := "https://sepolia.explorer.mode.network", chainId := some 919,
    ethereumConfig := some { blockExplorerApiUrl := some "https://api.sepolia.explorer.mode.network/api" } },
  { id := "manta-pacific", name := "Manta Pacific", type := .ethereum,
    environment := .mainnet, isEnabled := true,
    rpcUrl := "https://pacific-rpc.manta.network/http",
    explorerUrl := "https://pacific-explorer.manta.network", chainId := some 169,
    ethereumConfig := some { blockExplorerApiUrl := some "https://pacific-explorer.manta.network/api" } },
  { id := "manta-sepolia", name := "Manta Sepolia", type := .ethereum,
    environment := .testnet, isEnabled := true,
    rpcUrl := "https://pacific-rpc.sepolia-testnet.manta.network/http",
    explorerUrl := "https://pacific-explorer.sepolia-testnet.manta.network", chainId := some 3441006,
    ethereumConfig := some { blockExplorerApiUrl := some "https://pacific-explorer.sepolia-testnet.manta.network/api" } },
  { id := "metis-mainnet", name := "Metis", type := .ethereum,
    environment := .mainnet, isEnabled := true,
    rpcUrl := "https://andromeda.metis.io/?owner=1088",
    explorerUrl := "https://andromeda-explorer.metis.io", chainId := some 1088,
    ethereumConfig := some { blockExplorerApiUrl := some "https://andromeda-explorer.metis.io/api" } },
  { id := "metis-sepolia", name := "Metis Sepolia", type := .ethereum,
    environment := .testnet, isEnabled := true,
    rpcUrl := "https://sepolia.metis.io/?owner=588",
    explorerUrl := "https://sepolia-explorer.metis.io", chainId := some 59902,
    ethereumConfig := some { blockExplorerApiUrl := some "https://sepolia-explorer.metis.io/api" } },
  { id := "mantle-mainnet", name := "Mantle", type := .ethereum,
    environment := .mainnet, isEnabled := true,
    rpcUrl := "https://rpc.mantle.xyz",
    explorerUrl := "https://explorer.mantle.xyz", chainId := some 5000,
    ethereumConfig := some { blockExplorerApiUrl := some "https://explorer.mantle.xyz/api" } },
  { id := "mantle-sepolia", name := "Mantle Sepolia", type := .ethereum,
    environment := .testnet, isEnabled := true,
    rpcUrl := "https://rpc.sepolia.mantle.xyz",
    explorerUrl := "https://explorer.sepolia.mantle.xyz", chainId := some 5003,
    ethereumConfig := some { blockExplorerApiUrl := some "https://explorer.sepolia.mantle.xyz/api" } },
  { id := "bsc-mainnet", name := "BNB Smart Chain", type := .ethereum,
    environment := .mainnet, isEnabled := true,
    rpcUrl := "https://bsc-dataseed.binance.org",
    explorerUrl := "https://bscscan.com", chainId := some 56,
    ethereumConfig := some { blockExplorerApiUrl := some "https://api.bscscan.com/api" } },
  { id := "bsc-testnet", name := "BNB Smart Chain Testnet", type := .ethereum,
    environment := .testnet, isEnabled := true,
    rpcUrl := "https://data-seed-prebsc-1-s1.binance.org:8545",
    explorerUrl := "https://testnet.bscscan.com", chainId := some 97,
    ethereumConfig := some { blockExplorerApiUrl := some "https://api-testnet.bscscan.com/api" } },
  { id := "avalanche-mainnet", name := "Avalanche", type := .ethereum,
    environment := .mainnet, isEnabled := true,
    rpcUrl := "https://api.avax.network/ext/bc/C/rpc",
    explorerUrl := "https://snowtrace.io", chainId := some 43114,
    ethereumConfig := some { blockExplorerApiUrl := some "https://api.snowtrace.io/api" } },
  { id := "avalanche-fuji", name := "Avalanche Fuji", type := .ethereum,
    environment := .testnet, isEnabled := true,
    rpcUrl := "https://api.avax-test.network/ext/bc/C/rpc",
    explorerUrl := "https://testnet.snowtrace.io", chainId := some 43113,
    ethereumConfig := some { blockExplorerApiUrl := some "https://api-testnet.snowtrace.io/api" } },
  { id := "fantom-mainnet", name := "Fantom", type := .ethereum,
    environment := .mainnet, isEnabled := true,
    rpcUrl := "https://rpc.ftm.tools",
    explorerUrl := "https://ftmscan.com", chainId := some 250,
    ethereumConfig := some { blockExplorerApiUrl := some "https://api.ftmscan.com/api" } },
  { id := "fantom-testnet", name := "Fantom Testnet", type := .ethereum,
    environment := .testnet, isEnabled := true,
    rpcUrl := "https://rpc.testnet.fantom.network",
    explorerUrl := "https://testnet.ftmscan.com", chainId := some 4002,
    ethereumConfig := some { blockExplorerApiUrl := some "https://api-testnet.ftmscan.com/api" } }
]

/-! ## JS Map model

A JS `Map` is an insertion-ordered list of key/value pairs.
`set` replaces the entry in place when the key exists, otherwise
appends; `get`/`has` find the first matching key; `delete` removes
the first matching entry and reports whether one existed. -/

def mapSet {β : Type} : List (String × β) → String → β → List (String × β)
  | [], k, v => [(k, v)]
  | p :: rest, k, v => if p.1 = k then (k, v) :: rest else p :: mapSet rest k v

def mapGet {β : Type} : List (String × β) → String → Option β
  | [], _ => none
  | p :: rest, k => if p.1 = k then some p.2 else mapGet rest k

def mapHas {β : Type} : List (String × β) → String → Bool
  | [], _ => false
  | p :: rest, k => if p.1 = k then true else mapHas rest k

def mapDelete {β : Type} : List (String × β) → String → List (String × β)
  | [], _ => []
  | p :: rest, k => if p.1 = k then rest else p :: mapDelete rest k

/-! ## Environment variables read by the registry

`process.env` values consulted by `applyEnvironmentOverrides`
(network-registry.ts lines 582-621); `none` models an unset variable. -/

structure RegistryEnv where
  hederaOperatorId : Option String := none
  hederaOperatorKey : Option String := none
  hederaMirrorNodeUrl : Option String := none
  hederaRpcUrl : Option String := none
  sepoliaRpcUrl : Option String := none
  goerliRpcUrl : Option String := none
  etherscanApiKey : Option String := none
deriving Repr

/-- NetworkRegistry.applyEnvironmentOverrides
(network-registry.ts lines 582-621). -/
def applyEnvironmentOverrides (env : RegistryEnv) (network : NetworkConfig) : NetworkConfig :=
  let afterHedera :=
    if network.type = .hedera ∧ network.hederaConfig.isSome then
      if network.id = "hedera-testnet" then
        { network with
          hederaConfig := network.hederaConfig.map (fun hc =>
            { hc with
              operatorId := env.hederaOperatorId,
              operatorKey := env.hederaOperatorKey,
              mirrorNodeUrl := (env.hederaMirrorNodeUrl.getD hc.mirrorNodeUrl) }),
          rpcUrl := env.hederaRpcUrl.getD network.rpcUrl }
      else network
    else network
  if network.type = .ethereum ∧ network.ethereumConfig.isSome then
    if network.id = "ethereum-sepolia" then
      { afterHedera with
        rpcUrl := env.sepoliaRpcUrl.getD network.rpcUrl,
        ethereumConfig := afterHedera.ethereumConfig.map (fun ec =>
          { ec with apiKey := env.etherscanApiKey }) }
    else if network.id = "ethereum-goerli" then
      { afterHedera with
        rpcUrl := env.goerliRpcUrl.getD network.rpcUrl,
        ethereumConfig := afterHedera.ethereumConfig.map (fun ec =>
          { ec with apiKey := env.etherscanApiKey }) }
    else afterHedera
  else afterHedera

/-! ## NetworkRegistry (network-registry.ts lines 558-703) -/

structure RegistryState where
  networks : List (String × NetworkConfig)
  activeNetworkId : Option String
deriving Repr

/-- NetworkRegistry.initializeDefaultNetworks: `networks.set(network.id,
applyEnvironmentOverrides(network))` for each default network. -/
def initializeDefaultNetworks (env : RegistryEnv) : List (String × NetworkConfig) :=
  DEFAULT_NETWORKS.foldl (fun m n => mapSet m n.id (applyEnvironmentOverrides env n)) []

/-- NetworkRegistry constructor: load defaults, then set the active
network to `hedera-testnet`. -/
def initialRegistry (env : RegistryEnv) : RegistryState :=
  { networks := initializeDefaultNetworks env,
    activeNetworkId := some "hedera-testnet" }

/-- NetworkRegistry.getNetwork. -/
def rgGetNetwork (s : RegistryState) (id : String) : Option NetworkConfig :=
  mapGet s.networks id

/-- NetworkRegistry.getAllNetworks (insertion-ordered values). -/
def rgGetAllNetworks (s : RegistryState) : List NetworkConfig :=
  s.networks.map (·.2)

/-- NetworkRegistry.addNetwork. -/
def rgAddNetwork (s : RegistryState) (network : NetworkConfig) : RegistryState :=
  { s with networks := mapSet s.networks network.id network }

/-- Partial<NetworkConfig>: a patch of optional field updates; `none`
means the field is absent from the update object. -/
structure NetworkPatch where
  id : Option String := none
  name : Option String := none
  type : Option NetworkType := none
  environment : Option NetworkEnvironment := none
  isEnabled : Option Bool := none
  rpcUrl : Option String := none
  explorerUrl : Option String := none
  chainId : Option (Option Nat) := none
  hederaConfig : Option (Option HederaSubConfig) := none
  ethereumConfig : Option (Option EthereumSubConfig) := none

/-- JS object spread `{...network, ...updates}`. -/
def mergePatch (n : NetworkConfig) (u : NetworkPatch) : NetworkConfig :=
  { id := u.id.getD n.id
    name := u.name.getD n.name
    type := u.type.getD n.type
    environment := u.environment.getD n.environment
    isEnabled := u.isEnabled.getD n.isEnabled
    rpcUrl := u.rpcUrl.getD n.rpcUrl
    explorerUrl := u.explorerUrl.getD n.explorerUrl
    chainId := u.chainId.getD n.chainId
    hederaConfig := u.hederaConfig.getD n.hederaConfig
    ethereumConfig := u.ethereumConfig.getD n.ethereumConfig }

/-- NetworkRegistry.updateNetwork: merge the patch into the stored
config under the same key; `undefined` when the id is unknown. -/
def rgUpdateNetwork (s : RegistryState) (id : String) (u : NetworkPatch) :
    Option NetworkConfig × RegistryState :=
  match mapGet s.networks id with
  | none => (none, s)
  | some network =>
    let updated := mergePatch network u
    (some updated, { s with networks := mapSet s.networks id updated })

/-- NetworkRegistry.removeNetwork: refuses to remove the active
network, otherwise deletes the entry and reports whether it existed. -/
def rgRemoveNetwork (s : RegistryState) (id : String) : Bool × RegistryState :=
  if s.activeNetworkId = some id then
    (false, s)
  else
    (mapHas s.networks id, { s with networks := mapDelete s.networks id })

/-- NetworkRegistry.setActiveNetwork. -/
def rgSetActiveNetwork (s : RegistryState) (id : String) : Bool × RegistryState :=
  if mapHas s.networks id then
    (true, { s with activeNetworkId := some id })
  else
    (false, s)

/-- NetworkRegistry.getActiveNetwork. -/
def rgGetActiveNetwork (s : RegistryState) : Option NetworkConfig :=
  match s.activeNetworkId with
  | none => none
  | some id => mapGet s.networks id

/-! ## Registry operation sequences (for reachability) -/

inductive RegistryOp where
  | add (network : NetworkConfig)
  | update (id : String) (u : NetworkPatch)
  | remove (id : String)
  | setActive (id : String)

def applyRegistryOp (s : RegistryState) : RegistryOp → RegistryState
  | .add n => rgAddNetwork s n
  | .update id u => (rgUpdateNetwork s id u).2
  | .remove id => (rgRemoveNetwork s id).2
  | .setActive id => (rgSetActiveNetwork s id).2

def runRegistryOps (s : RegistryState) (ops : List RegistryOp) : RegistryState :=
  ops.foldl applyRegistryOp s

/-! ## Lemmas about the JS Map model -/

theorem mapGet_mapSet {β : Type} (m : List (String × β)) (k a : String) (v : β) :
    mapGet (mapSet m k v) a = if a = k then some v else mapGet m a := by
  induction m with
  | nil =>
    by_cases h : a = k
    · simp [mapSet, mapGet, h]
    · simp [mapSet, mapGet, h, Ne.symm h]
  | cons p rest ih =>
    by_cases hp : p.1 = k
    · by_cases ha : a = k
      · simp [mapSet, mapGet, hp, ha]
      · have hpa : p.1 ≠ a := fun hh => ha ((hp ▸ hh : k = a)).symm
        simp [mapSet, mapGet, hp, ha, Ne.symm ha, hpa]
    · by_cases ha : a = k
      · subst ha
        simp [mapSet, mapGet, hp, ih]
      · by_cases hpa : p.1 = a <;> simp [mapSet, mapGet, hp, hpa, ih, ha]

theorem mapHas_mapSet {β : Type} (m : List (String × β)) (k a : String) (v : β) :
    mapHas (mapSet m k v) a = if a = k then true else mapHas m a := by
  induction m with
  | nil =>
    by_cases h : a = k
    · simp [mapSet, mapHas, h]
    · simp [mapSet, mapHas, h, Ne.symm h]
  | cons p rest ih =>
    by_cases hp : p.1 = k
    · by_cases ha : a = k
      · simp [mapSet, mapHas, hp, ha]
      · have hpa : p.1 ≠ a := fun hh => ha ((hp ▸ hh : k = a)).symm
        simp [mapSet, mapHas, hp, ha, Ne.symm ha, hpa]
    · by_cases ha : a = k
      · subst ha
        simp [mapSet, mapHas, hp, ih]
      · by_cases hpa : p.1 = a <;> simp [mapSet, mapHas, hp, hpa, ih, ha]

theorem mapHas_mapDelete {β : Type} (m : List (String × β)) (k a : String)
    (hne : a ≠ k) : mapHas (mapDelete m k) a = mapHas m a := by
  induction m with
  | nil => simp [mapDelete, mapHas]
  | cons p rest ih =>
    by_cases hp : p.1 = k
    · have hpa : p.1 ≠ a := fun hh => hne ((hp ▸ hh : k = a)).symm
      simp [mapDelete, mapHas, hp, hpa, hne, Ne.symm hne]
    · by_cases hpa : p.1 = a <;> simp [mapDelete, mapHas, hp, hpa, ih, hne, Ne.symm hne]

theorem mapHas_foldl_mapSet {β : Type} (f : NetworkConfig → β)
    (l : List NetworkConfig) (m0 : List (String × β)) (k : String) :
    mapHas (l.foldl (fun m n => mapSet m n.id (f n)) m0) k =
      (mapHas m0 k || l.any (fun n => n.id == k)) := by
  induction l generalizing m0 with
  | nil => simp
  | cons n rest ih =>
    simp only [List.foldl_cons, List.any_cons, ih, mapHas_mapSet]
    by_cases h : k = n.id
    · simp [h]
    · have hb : ¬ (n.id == k) = true := by
        simp only [beq_iff_eq]
        exact fun hh => h hh.symm
      simp only [if_neg h, Bool.or_assoc]
      congr 1
      simp [hb]

theorem mapGet_foldl_mapSet_mem {β : Type} (f : NetworkConfig → β)
    (l : List NetworkConfig) (m0 : List (String × β)) (k : String) (c : β)
    (h : mapGet (l.foldl (fun m n => mapSet m n.id (f n)) m0) k = some c) :
    (∃ n ∈ l, n.id = k ∧ c = f n) ∨ mapGet m0 k = some c := by
  induction l generalizing m0 with
  | nil => exact Or.inr h
  | cons n rest ih =>
    rcases ih (mapSet m0 n.id (f n)) h with hmem | hbase
    · rcases hmem with ⟨n', hn', hid, hc⟩
      exact Or.inl ⟨n', List.mem_cons_of_mem _ hn', hid, hc⟩
    · rw [mapGet_mapSet] at hbase
      by_cases hk : k = n.id
      · rw [if_pos hk] at hbase
        exact Or.inl ⟨n, List.mem_cons_self _ _, hk.symm, (Option.some_inj.mp hbase).symm⟩
      · rw [if_neg hk] at hbase
        exact Or.inr hbase

/-! ## Lemmas about environment overrides -/

theorem applyEnvironmentOverrides_id (env : RegistryEnv) (n : NetworkConfig) :
    (applyEnvironmentOverrides env n).id = n.id := by
  unfold applyEnvironmentOverrides
  split_ifs <;> rfl

theorem applyEnvironmentOverrides_chainId (env : RegistryEnv) (n : NetworkConfig) :
    (applyEnvironmentOverrides env n).chainId = n.chainId := by
  unfold applyEnvironmentOverrides
  split_ifs <;> rfl

/-! ## Registry invariant (claims C5, C6, C7) -/

theorem registryInv_applyOp (s : RegistryState) (op : RegistryOp)
    (h : ∃ a, s.activeNetworkId = some a ∧ mapHas s.networks a = true) :
    ∃ a, (applyRegistryOp s op).activeNetworkId = some a ∧
      mapHas (applyRegistryOp s op).networks a = true := by
  obtain ⟨a, ha, hhas⟩ := h
  cases op with
  | add n =>
    refine ⟨a, ha, ?_⟩
    show mapHas (mapSet s.networks n.id n) a = true
    rw [mapHas_mapSet]
    split_ifs with hh
    · rfl
    · exact hhas
  | update id u =>
    show ∃ b, (rgUpdateNetwork s id u).2.activeNetworkId = some b ∧
      mapHas (rgUpdateNetwork s id u).2.networks b = true
    unfold rgUpdateNetwork
    cases hg : mapGet s.networks id with
    | none =>
      simp only [hg]
      exact ⟨a, ha, hhas⟩
    | some n =>
      simp only [hg]
      refine ⟨a, ha, ?_⟩
      show mapHas (mapSet s.networks id (mergePatch n u)) a = true
      rw [mapHas_mapSet]
      split_ifs with hh
      · rfl
      · exact hhas
  | remove id =>
    show ∃ b, (rgRemoveNetwork s id).2.activeNetworkId = some b ∧
      mapHas (rgRemoveNetwork s id).2.networks b = true
    unfold rgRemoveNetwork
    by_cases hc : s.activeNetworkId = some id
    · rw [if_pos hc]
      exact ⟨a, ha, hhas⟩
    · rw [if_neg hc]
      refine ⟨a, ha, ?_⟩
      have hne : a ≠ id := fun hh => hc (hh ▸ ha)
      show mapHas (mapDelete s.networks id) a = true
      rw [mapHas_mapDelete _ _ _ hne]
      exact hhas
  | setActive id =>
    show ∃ b, (rgSetActiveNetwork s id).2.activeNetworkId = some b ∧
      mapHas (rgSetActiveNetwork s id).2.networks b = true
    unfold rgSetActiveNetwork
    by_cases hc : mapHas s.networks id = true
    · rw [if_pos hc]
      exact ⟨id, rfl, hc⟩
    · rw [if_neg hc]
      exact ⟨a, ha, hhas⟩

theorem registryInv_runOps (ops : List RegistryOp) :
    ∀ s : RegistryState,
      (∃ a, s.activeNetworkId = some a ∧ mapHas s.networks a = true) →
      ∃ a, (runRegistryOps s ops).activeNetworkId = some a ∧
        mapHas (runRegistryOps s ops).networks a = true := by
  induction ops with
  | nil => exact fun s h => h
  | cons op rest ih =>
    intro s h
    exact ih (applyRegistryOp s op) (registryInv_applyOp s op h)

set_option maxHeartbeats 4000000 in
theorem registryInv_initial (env : RegistryEnv) :
    ∃ a, (initialRegistry env).activeNetworkId = some a ∧
      mapHas (initialRegistry env).networks a = true := by
  refine ⟨"hedera-testnet", rfl, ?_⟩
  simp only [initialRegistry]
  unfold initializeDefaultNetworks
  rw [mapHas_foldl_mapSet]
  decide

/-- C5: in every state reachable from the registry constructor by any
sequence of addNetwork, updateNetwork, removeNetwork and
setActiveNetwork calls there is exactly one active network id and it
names a network present in the registry; and removeNetwork on the
active id returns false and leaves the state unchanged. -/
theorem registry_reachable_active_invariant :
    (∀ (env : RegistryEnv) (ops : List RegistryOp),
      ∃ a, (runRegistryOps (initialRegistry env) ops).activeNetworkId = some a ∧
        mapHas (runRegistryOps (initialRegistry env) ops).networks a = true) ∧
    (∀ (s : RegistryState) (a : String), s.activeNetworkId = some a →
      rgRemoveNetwork s a = (false, s)) := by
  constructor
  · intro env ops
    exact registryInv_runOps ops (initialRegistry env) (registryInv_initial env)
  · intro s a ha
    unfold rgRemoveNetwork
    rw [if_pos ha]

set_option maxHeartbeats 4000000 in
theorem registry_reachable_active_invariant_witness :
    (∃ a, (runRegistryOps (initialRegistry {}) []).activeNetworkId = some a ∧
      mapHas (runRegistryOps (initialRegistry {}) []).networks a = true) ∧
    rgRemoveNetwork (initialRegistry {}) "hedera-testnet" = (false, initialRegistry {}) :=
  ⟨registry_reachable_active_invariant.1 {} [],
   registry_reachable_active_invariant.2 (initialRegistry {}) "hedera-testnet" rfl⟩

/-- C6: setActiveNetwork on an id not present in the registry returns
false, and getActiveNetwork returns the same value before and after
the call. -/
theorem setActiveNetwork_unknown_id (s : RegistryState) (id : String)
    (h : mapHas s.networks id = false) :
    (rgSetActiveNetwork s id).1 = false ∧
    rgGetActiveNetwork (rgSetActiveNetwork s id).2 = rgGetActiveNetwork s := by
  have hne : ¬ mapHas s.networks id = true := by
    rw [h]
    exact Bool.false_ne_true
  unfold rgSetActiveNetwork
  rw [if_neg hne]
  exact ⟨rfl, rfl⟩

set_option maxHeartbeats 4000000 in
theorem setActiveNetwork_unknown_id_witness :
    mapHas (initialRegistry {}).networks "no-such-network" = false ∧
    (rgSetActiveNetwork (initialRegistry {}) "no-such-network").1 = false ∧
    rgGetActiveNetwork (rgSetActiveNetwork (initialRegistry {}) "no-such-network").2 =
      rgGetActiveNetwork (initialRegistry {}) :=
  ⟨by decide, setActiveNetwork_unknown_id (initialRegistry {}) "no-such-network" (by decide)⟩

/-! ## chainId uniqueness across the default registry (claim C7) -/

theorem default_chainIds_nodup : (DEFAULT_NETWORKS.map (·.chainId)).Nodup := by decide

/-- C7: for every pair of distinct network ids in the default
registry (under any environment overrides), the configs returned by
getNetwork have distinct chainId values. -/
theorem default_registry_chainId_unique (env : RegistryEnv)
    (id₁ id₂ : String) (c₁ c₂ : NetworkConfig) (hne : id₁ ≠ id₂)
    (h₁ : rgGetNetwork (initialRegistry env) id₁ = some c₁)
    (h₂ : rgGetNetwork (initialRegistry env) id₂ = some c₂) :
    c₁.chainId ≠ c₂.chainId := by
  simp only [rgGetNetwork, initialRegistry] at h₁ h₂
  unfold initializeDefaultNetworks at h₁ h₂
  rcases mapGet_foldl_mapSet_mem _ _ _ _ _ h₁ with ⟨n₁, hm₁, hid₁, hc₁⟩ | hbad
  · rcases mapGet_foldl_mapSet_mem _ _ _ _ _ h₂ with ⟨n₂, hm₂, hid₂, hc₂⟩ | hbad
    · subst hc₁
      subst hc₂
      rw [applyEnvironmentOverrides_chainId, applyEnvironmentOverrides_chainId]
      intro heq
      have hnn : n₁ = n₂ := List.inj_on_of_nodup_map default_chainIds_nodup hm₁ hm₂ heq
      exact hne (by rw [← hid₁, ← hid₂, hnn])
    · exact absurd hbad (by simp [mapGet])
  · exact absurd hbad (by simp [mapGet])

def sampleHederaTestnetCfg : NetworkConfig :=
  { id := "hedera-testnet", name := "Hedera Testnet", type := .hedera,
    environment := .testnet, isEnabled := true,
    rpcUrl := "https://testnet.hashio.io/api",
    explorerUrl := "https://hashscan.io/testnet", chainId := some 296,
    hederaConfig := some { mirrorNodeUrl := "https://testnet.mirrornode.hedera.com/api/v1",
                           operatorId := none, operatorKey := none } }

def sampleHederaMainnetCfg : NetworkConfig :=
  { id := "hedera-mainnet", name := "Hedera Mainnet", type := .hedera,
    environment := .mainnet, isEnabled := true,
    rpcUrl := "https://mainnet.hashio.io/api",
    explorerUrl := "https://hashscan.io/mainnet", chainId := some 295,
    hederaConfig := some { mirrorNodeUrl := "https://mainnet-public.mirrornode.hedera.com/api/v1" } }

set_option maxHeartbeats 4000000 in
theorem default_registry_chainId_unique_witness :
    (("hedera-testnet" : String) ≠ "hedera-mainnet") ∧
    rgGetNetwork (initialRegistry {}) "hedera-testnet" = some sampleHederaTestnetCfg ∧
    rgGetNetwork (initialRegistry {}) "hedera-mainnet" = some sampleHederaMainnetCfg ∧
    sampleHederaTestnetCfg.chainId ≠ sampleHederaMainnetCfg.chainId :=
  ⟨by decide, by decide, by decide,
   default_registry_chainId_unique {} "hedera-testnet" "hedera-mainnet"
     sampleHederaTestnetCfg sampleHederaMainnetCfg (by decide) (by decide) (by decide)⟩

/-! ## EthereumAdapter.formatAddress (claim C10)

JS strings are modelled as `List Char`; `String.prototype.toLowerCase`
is the ASCII case map `Char.toLower` applied character-wise, and
`String.prototype.startsWith` is `List.isPrefixOf`. -/

def jsStartsWith (s pre : List Char) : Bool :=
  pre.isPrefixOf s

/-- EthereumAdapter.formatAddress (ethereum-adapter.ts lines 427-433):
prepend "0x" when missing, otherwise lowercase. -/
def ethFormatAddress (address : List Char) : List Char :=
  if ¬ jsStartsWith address ['0', 'x'] then '0' :: 'x' :: address
  else address.map Char.toLower

theorem charToLower_toLower (c : Char) : c.toLower.toLower = c.toLower := by
  unfold Char.toLower
  by_cases h : 65 ≤ c.toNat ∧ c.toNat ≤ 90
  · rw [if_pos h]
    have hv : (c.toNat + 32).isValidChar := Or.inl (by omega)
    have he : Char.ofNat (c.toNat + 32) = Char.ofNatAux (c.toNat + 32) hv := dif_pos hv
    rw [he]
    have ht : (Char.ofNatAux (c.toNat + 32) hv).toNat = c.toNat + 32 := rfl
    rw [if_neg, ← he]
    rw [ht]
    omega
  · rw [if_neg h, if_neg h]

theorem jsStartsWith0x_iff (l : List Char) :
    jsStartsWith l ['0', 'x'] = true ↔ ∃ rest, l = '0' :: 'x' :: rest := by
  unfold jsStartsWith
  rw [List.isPrefixOf_iff_prefix]
  constructor
  · rintro ⟨t, ht⟩
    exact ⟨t, ht.symm⟩
  · rintro ⟨rest, rfl⟩
    exact ⟨rest, rfl⟩

theorem map_toLower_keeps_0x (r : List Char) :
    ('0' :: 'x' :: r).map Char.toLower = '0' :: 'x' :: r.map Char.toLower := by
  rw [List.map_cons, List.map_cons]
  rw [show Char.toLower '0' = '0' from by decide]
  rw [show Char.toLower 'x' = 'x' from by decide]

/-- C10: formatAddress always yields a string starting with "0x";
inputs already starting with "0x" are returned lowercased and
formatAddress is idempotent on them; inputs without the prefix get
"0x" prepended with the rest unchanged. -/
theorem formatAddress_properties (a : List Char) :
    jsStartsWith (ethFormatAddress a) ['0', 'x'] = true ∧
    (jsStartsWith a ['0', 'x'] = true →
      ethFormatAddress a = a.map Char.toLower ∧
      ethFormatAddress (ethFormatAddress a) = ethFormatAddress a) ∧
    (jsStartsWith a ['0', 'x'] = false → ethFormatAddress a = '0' :: 'x' :: a) := by
  by_cases h : jsStartsWith a ['0', 'x'] = true
  · obtain ⟨rest, hrest⟩ := (jsStartsWith0x_iff a).mp h
    subst hrest
    have hfmt : ethFormatAddress ('0' :: 'x' :: rest) =
        '0' :: 'x' :: rest.map Char.toLower := by
      unfold ethFormatAddress
      rw [if_neg (by rw [h]; intro hc; exact hc rfl)]
      exact map_toLower_keeps_0x rest
    refine ⟨?_, fun _ => ⟨by rw [hfmt, map_toLower_keeps_0x], ?_⟩,
      fun hf => absurd h (by rw [hf]; simp)⟩
    · rw [hfmt]
      exact (jsStartsWith0x_iff _).mpr ⟨_, rfl⟩
    · rw [hfmt]
      have h2 : jsStartsWith ('0' :: 'x' :: rest.map Char.toLower) ['0', 'x'] = true :=
        (jsStartsWith0x_iff _).mpr ⟨_, rfl⟩
      unfold ethFormatAddress
      rw [if_neg (by rw [h2]; intro hc; exact hc rfl)]
      rw [map_toLower_keeps_0x]
      congr 1
      congr 1
      rw [List.map_map]
      exact List.map_congr_left (fun c _ => charToLower_toLower c)
  · have hf : jsStartsWith a ['0', 'x'] = false := by
      cases hb : jsStartsWith a ['0', 'x']
      · rfl
      · exact absurd hb h
    have hfmt : ethFormatAddress a = '0' :: 'x' :: a := by
      unfold ethFormatAddress
      rw [if_pos (by rw [hf]; exact Bool.false_ne_true)]
    refine ⟨?_, fun ht => absurd ht h, fun _ => hfmt⟩
    rw [hfmt]
    exact (jsStartsWith0x_iff _).mpr ⟨_, rfl⟩

theorem formatAddress_properties_witness :
    (jsStartsWith ['0', 'x', 'A', 'B'] ['0', 'x'] = true) ∧
    ethFormatAddress ['0', 'x', 'A', 'B'] = ['0', 'x', 'a', 'b'] ∧
    ethFormatAddress (ethFormatAddress ['0', 'x', 'A', 'B']) =
      ethFormatAddress ['0', 'x', 'A', 'B'] ∧
    (jsStartsWith ['a', 'b'] ['0', 'x'] = false) ∧
    ethFormatAddress ['a', 'b'] = ['0', 'x', 'a', 'b'] :=
  ⟨by decide,
   ((formatAddress_properties ['0', 'x', 'A', 'B']).2.1 (by decide)).1.trans (by decide),
   ((formatAddress_properties ['0', 'x', 'A', 'B']).2.1 (by decide)).2,
   by decide,
   (formatAddress_properties ['a', 'b']).2.2 (by decide)⟩

/-! ## EthereumAdapter.estimateGas (claim C8) -/

/-- Outcome of the live gas-estimation attempt.
`providerAvailable` is whether `this.provider` is non-null after the
lazy re-init attempt at the top of estimateGas; `liveEstimate` is
`some g` when the raced `estimateGas` SDK call returns `g` within the
10-second timeout, `none` when it throws or times out (including
deployment-data encoding errors inside the same try block). -/
structure GasWorld where
  providerAvailable : Bool
  liveEstimate : Option Nat

/-- Parameter shape dispatched on by `'bytecode' in params`. -/
inductive GasRequest where
  | deployment
  | functionCall (abiPresent : Bool)

def gasEstimationTimeoutMs : Nat := 10000

/-- Math.ceil(gasEstimate * 1.2) over exact rationals. -/
def gasWithBuffer (g : Nat) : Int := ⌈(g : ℚ) * (12 / 10)⌉

/-- EthereumAdapter.estimateGas (ethereum-adapter.ts lines 438-516). -/
def ethEstimateGas (w : GasWorld) (req : GasRequest) : Int :=
  if ¬ w.providerAvailable then
    match req with
    | .deployment => 2000000
    | .functionCall _ => 500000
  else
    match req with
    | .deployment =>
      match w.liveEstimate with
      | some g => gasWithBuffer g
      | none => 2000000
    | .functionCall abiPresent =>
      if ¬ abiPresent then 500000
      else
        match w.liveEstimate with
        | some g => gasWithBuffer g
        | none => 500000

/-- C8: when the live estimate succeeds estimateGas returns the
estimate with a 20% buffer (ceiling of estimate times 1.2); when the
live call fails/times out or no provider is available it returns the
static fallbacks 2,000,000 (deployment) and 500,000 (function call). -/
theorem estimateGas_buffer_and_fallbacks (w : GasWorld) (g : Nat) :
    (w.providerAvailable = true → w.liveEstimate = some g →
      ethEstimateGas w .deployment = ⌈(g : ℚ) * (12 / 10)⌉ ∧
      ethEstimateGas w (.functionCall true) = ⌈(g : ℚ) * (12 / 10)⌉) ∧
    (w.providerAvailable = false →
      ethEstimateGas w .deployment = 2000000 ∧
      ∀ b, ethEstimateGas w (.functionCall b) = 500000) ∧
    (w.liveEstimate = none →
      ethEstimateGas w .deployment = 2000000 ∧
      ∀ b, ethEstimateGas w (.functionCall b) = 500000) := by
  refine ⟨fun hp hl => ?_, fun hp => ?_, fun hl => ?_⟩
  · unfold ethEstimateGas
    rw [hp, hl]
    exact ⟨rfl, rfl⟩
  · unfold ethEstimateGas
    rw [hp]
    refine ⟨rfl, fun b => rfl⟩
  · unfold ethEstimateGas
    rw [hl]
    cases w.providerAvailable
    · exact ⟨rfl, fun b => rfl⟩
    · refine ⟨rfl, fun b => ?_⟩
      cases b <;> rfl

theorem estimateGas_buffer_and_fallbacks_witness :
    ((⟨true, some 100⟩ : GasWorld).providerAvailable = true) ∧
    ((⟨true, some 100⟩ : GasWorld).liveEstimate = some 100) ∧
    ethEstimateGas ⟨true, some 100⟩ .deployment = ⌈(100 : ℚ) * (12 / 10)⌉ ∧
    ethEstimateGas ⟨true, some 100⟩ .deployment = 120 ∧
    ((⟨false, none⟩ : GasWorld).providerAvailable = false) ∧
    ethEstimateGas ⟨false, none⟩ .deployment = 2000000 :=
  ⟨rfl, rfl,
   ((estimateGas_buffer_and_fallbacks ⟨true, some 100⟩ 100).1 rfl rfl).1,
   (((estimateGas_buffer_and_fallbacks ⟨true, some 100⟩ 100).1 rfl rfl).1).trans (by norm_num),
   rfl,
   ((estimateGas_buffer_and_fallbacks ⟨false, none⟩ 0).2.1 rfl).1⟩

/-! ## EthereumAdapter.initialize and getRpcUrls (claim C3) -/

/-- String startsWith on Lean strings via their character lists. -/
def jsStartsWithStr (s pre : String) : Bool :=
  pre.data.isPrefixOf s.data

/-- Hardcoded fallback RPC endpoints per network id
(ethereum-adapter.ts lines 560-609). -/
def fallbackRpcUrls (id : String) : List String :=
  match id with
  | "ethereum-mainnet" =>
    ["https://eth.llamarpc.com", "https://rpc.ankr.com/eth",
     "https://ethereum.publicnode.com", "https://eth.drpc.org"]
  | "ethereum-sepolia" =>
    ["https://rpc2.sepolia.org", "https://rpc.sepolia.org",
     "https://ethereum-sepolia.publicnode.com"]
  | "polygon-mainnet" =>
    ["https://polygon.llamarpc.com", "https://rpc.ankr.com/polygon",
     "https://polygon.drpc.org"]
  | "optimism-mainnet" =>
    ["https://optimism.llamarpc.com", "https://rpc.ankr.com/optimism",
     "https://optimism.drpc.org"]
  | "arbitrum-one" =>
    ["https://arbitrum.llamarpc.com", "https://rpc.ankr.com/arbitrum",
     "https://arbitrum.drpc.org"]
  | "base-mainnet" =>
    ["https://base.llamarpc.com", "https://rpc.ankr.com/base",
     "https://base.drpc.org"]
  | _ => []

/-- [...new Set(urls)]: first-occurrence-preserving deduplication. -/
def jsSetDedup (l : List String) : List String :=
  l.foldl (fun acc x => if acc.contains x then acc else acc ++ [x]) []

/-- EthereumAdapter.getRpcUrls: primary followed by fallbacks,
deduplicated, keeping only URLs that start with "http". -/
def getRpcUrls (cfg : NetworkConfig) : List String :=
  (jsSetDedup (cfg.rpcUrl :: fallbackRpcUrls cfg.id)).filter
    (fun url => jsStartsWithStr url "http")

/-- Oracle for EthereumAdapter.initialize: `rpcOk url` is whether the
connection test (`provider.getNetwork()` raced against the 10-second
timeout) succeeds for that endpoint; `privateKeyEnv` is
ETHEREUM_PRIVATE_KEY/PRIVATE_KEY (`none` for unset or empty);
`walletCtorOk` is whether `new ethers.Wallet` succeeds. -/
structure EthWorld where
  rpcOk : String → Bool
  privateKeyEnv : Option String := none
  walletCtorOk : Bool := true

structure EthAdapterState where
  provider : Option String := none
  wallet : Option String := none
  status : NetworkStatus := .disconnected
deriving DecidableEq, Repr

def ethConnectTimeoutMs : Nat := 10000

/-- Wallet setup step of initialize (ethereum-adapter.ts lines 92-105):
only a configured, non-placeholder key with a successful constructor
yields a wallet; every failure is caught and leaves the wallet null. -/
def ethInitWallet (w : EthWorld) : Option String :=
  match w.privateKeyEnv with
  | none => none
  | some k =>
    if ¬ jsIncludes k "YOUR_PRIVATE_KEY" then
      if w.walletCtorOk then some k else none
    else none

/-- EthereumAdapter.initialize (ethereum-adapter.ts lines 28-115):
try each candidate RPC URL in order, keep the first that connects;
exhausting the list leaves a disconnected adapter but still resolves
to true. -/
def ethInitAdapter (w : EthWorld) (cfg : NetworkConfig) : Bool × EthAdapterState :=
  match (getRpcUrls cfg).find? w.rpcOk with
  | none => (true, { provider := none, wallet := none, status := .disconnected })
  | some url => (true, { provider := some url, wallet := ethInitWallet w, status := .connected })

theorem find?_first_success {α : Type} (p : α → Bool) (l1 l2 : List α) (u : α)
    (h1 : ∀ v ∈ l1, p v = false) (hu : p u = true) :
    (l1 ++ u :: l2).find? p = some u := by
  induction l1 with
  | nil => simp [List.find?_cons_of_pos, hu]
  | cons a as ih =>
    have ha : p a = false := h1 a (List.mem_cons_self _ _)
    rw [List.cons_append, List.find?_cons_of_neg _ (by rw [ha]; exact Bool.false_ne_true)]
    exact ih (fun v hv => h1 v (List.mem_cons_of_mem _ hv))

/-- C3: initialize never throws and always resolves to true; it scans
the candidate list (primary RPC then hardcoded fallbacks, via
getRpcUrls) in order with a 10-second timeout per candidate, connects
to the first candidate that succeeds, and when every candidate fails
it resolves to true with the adapter disconnected but usable. -/
theorem ethInit_first_success_never_throws (w : EthWorld) (cfg : NetworkConfig) :
    (ethInitAdapter w cfg).1 = true ∧
    ((∀ u ∈ getRpcUrls cfg, w.rpcOk u = false) →
      (ethInitAdapter w cfg).2.status = .disconnected ∧
      (ethInitAdapter w cfg).2.provider = none) ∧
    (∀ (l1 l2 : List String) (u : String),
      getRpcUrls cfg = l1 ++ u :: l2 →
      (∀ v ∈ l1, w.rpcOk v = false) →
      w.rpcOk u = true →
      (ethInitAdapter w cfg).2.provider = some u ∧
      (ethInitAdapter w cfg).2.status = .connected) ∧
    ethConnectTimeoutMs = 10000 := by
  refine ⟨?_, fun hall => ?_, fun l1 l2 u heq h1 hu => ?_, rfl⟩
  · unfold ethInitAdapter
    cases (getRpcUrls cfg).find? w.rpcOk <;> rfl
  · have hnone : (getRpcUrls cfg).find? w.rpcOk = none := by
      rw [List.find?_eq_none]
      intro x hx
      rw [hall x hx]
      exact Bool.false_ne_true
    unfold ethInitAdapter
    rw [hnone]
    exact ⟨rfl, rfl⟩
  · have hsome : (getRpcUrls cfg).find? w.rpcOk = some u := by
      rw [heq]
      exact find?_first_success _ l1 l2 u h1 hu
    unfold ethInitAdapter
    rw [hsome]
    exact ⟨rfl, rfl⟩

def sampleSepoliaCfg : NetworkConfig :=
  { id := "ethereum-sepolia", name := "Sepolia Testnet", type := .ethereum,
    environment := .testnet, isEnabled := true,
    rpcUrl := "https://rpc.sepolia.org",
    explorerUrl := "https://sepolia.etherscan.io", chainId := some 11155111,
    ethereumConfig := some { blockExplorerApiUrl := some "https://api-sepolia.etherscan.io/api" } }

/-- World in which the primary Sepolia RPC is unreachable and the
first fallback responds. -/
def sampleSepoliaWorld : EthWorld :=
  { rpcOk := fun url => url == "https://rpc2.sepolia.org" }

set_option maxHeartbeats 1000000 in
theorem ethInit_first_success_never_throws_witness :
    getRpcUrls sampleSepoliaCfg =
      ["https://rpc.sepolia.org"] ++ "https://rpc2.sepolia.org" ::
        ["https://ethereum-sepolia.publicnode.com"] ∧
    (∀ v ∈ ["https://rpc.sepolia.org"], sampleSepoliaWorld.rpcOk v = false) ∧
    sampleSepoliaWorld.rpcOk "https://rpc2.sepolia.org" = true ∧
    (ethInitAdapter sampleSepoliaWorld sampleSepoliaCfg).2.provider =
      some "https://rpc2.sepolia.org" ∧
    (ethInitAdapter sampleSepoliaWorld sampleSepoliaCfg).2.status = .connected ∧
    (ethInitAdapter sampleSepoliaWorld sampleSepoliaCfg).1 = true :=
  ⟨by decide, by decide, by decide,
   ((ethInit_first_success_never_throws sampleSepoliaWorld sampleSepoliaCfg).2.2.1
      ["https://rpc.sepolia.org"] ["https://ethereum-sepolia.publicnode.com"]
      "https://rpc2.sepolia.org" (by decide) (by decide) (by decide)).1,
   ((ethInit_first_success_never_throws sampleSepoliaWorld sampleSepoliaCfg).2.2.1
      ["https://rpc.sepolia.org"] ["https://ethereum-sepolia.publicnode.com"]
      "https://rpc2.sepolia.org" (by decide) (by decide) (by decide)).2,
   (ethInit_first_success_never_throws sampleSepoliaWorld sampleSepoliaCfg).1⟩

/-! ## HederaAdapter (claims C2, C4) -/

/-- Adapter state; `client` records whether `this.client` is
non-null, and the operator credentials are those the constructor
extracted from the config (`|| null` maps empty strings to `none`). -/
structure HederaAdapterState where
  operatorId : Option String := none
  operatorKey : Option String := none
  client : Option Unit := none
  status : NetworkStatus := .disconnected
deriving DecidableEq, Repr

/-- HederaAdapter constructor (network-registry.ts Hedera section,
lines 735-743). -/
def hederaAdapterOfConfig (cfg : NetworkConfig) : HederaAdapterState :=
  { operatorId := cfg.hederaConfig.bind (·.operatorId),
    operatorKey := cfg.hederaConfig.bind (·.operatorKey),
    client := none,
    status := .disconnected }

/-- Credential validation at the top of initialize (lines 760-762):
null/empty or placeholder-containing credentials. -/
def hederaCredsMissingOrPlaceholder (oid okey : Option String) : Bool :=
  oid.isNone || okey.isNone ||
    jsIncludes (oid.getD "") "YOUR_ACCOUNT_ID" ||
    jsIncludes (okey.getD "") "YOUR_PRIVATE_KEY"

/-- Outcome of the contract-create submission
(`ContractCreateFlow.execute` + `getReceipt`). -/
inductive HederaExecOutcome where
  | throwsMsg (msg : String)
  | receiptNoContractId (txId : String)
  | success (contractId : String) (evmAddress : String) (txId : String)

/-- Oracle for the Hedera SDK calls made by the adapter.
`clientSetupOk` is whether `Client.forName`/`setOperator` (including
the `AccountId.fromString`/`PrivateKey.fromString` parses) succeed;
`balanceQueryOk` is whether the connection-test balance query beats
its 10-second timeout. A parse throw happens after `this.client` was
already assigned, so `client` is set on every non-read-only path. -/
structure HederaWorld where
  clientSetupOk : Bool := true
  balanceQueryOk : Bool := true
  exec : HederaExecOutcome := .throwsMsg ""

def hederaConnectTimeoutMs : Nat := 10000

/-- HederaAdapter.initialize (lines 755-809): missing/placeholder
credentials short-circuit to read-only mode (status DISCONNECTED, no
client, result true); every other path — connection test passing,
failing, or client setup throwing — is caught, sets status CONNECTED
and resolves true. -/
def hederaInit (w : HederaWorld) (st : HederaAdapterState) : Bool × HederaAdapterState :=
  if hederaCredsMissingOrPlaceholder st.operatorId st.operatorKey then
    (true, { st with status := .disconnected })
  else if w.clientSetupOk then
    if w.balanceQueryOk then
      (true, { st with client := some (), status := .connected })
    else
      (true, { st with client := some (), status := .connected })
  else
    (true, { st with client := some (), status := .connected })

/-- Normalized result record (network-adapter.ts lines 6-18),
restricted to the fields the Hedera deployment path populates. -/
structure BlockchainTransactionResult where
  success : Bool
  transactionId : Option String := none
  contractId : Option String := none
  contractAddress : Option String := none
  explorerUrl : Option String := none
  error : Option String := none
deriving DecidableEq, Repr

/-- Friendly-message mapping in deployContract's catch block
(lines 954-970). -/
def hederaDeployErrorMessage (msg : String) : String :=
  if jsIncludes msg "INSUFFICIENT_GAS" then
    "Deployment failed due to insufficient gas. Try increasing the gas limit."
  else if jsIncludes msg "CONTRACT_REVERT_EXECUTED" then
    "Contract deployment reverted. Check your constructor logic."
  else if jsIncludes msg "INSUFFICIENT_ACCOUNT_BALANCE" then
    "Insufficient account balance to deploy the contract."
  else msg

/-- HederaAdapter.getExplorerUrl for transactions (lines 1189-1194). -/
def hederaGetExplorerUrlTx (cfg : NetworkConfig) (hash : String) : String :=
  cfg.explorerUrl ++ "/transaction/" ++ hash

/-- HederaAdapter.deployContract (lines 831-977), with the parameter
marshaling factored out (it does not affect the result fields).
A null client triggers a lazy re-init; if the client is still null
the function throws "Hedera client not initialized", which its own
catch converts into a failure result. -/
def hederaDeployContract (w : HederaWorld) (cfg : NetworkConfig)
    (st : HederaAdapterState) : BlockchainTransactionResult × HederaAdapterState :=
  let st1 := match st.client with
    | some _ => st
    | none => (hederaInit w st).2
  if st1.client.isNone then
    ({ success := false,
       error := some (hederaDeployErrorMessage "Hedera client not initialized") }, st1)
  else
    match w.exec with
    | .throwsMsg msg =>
      ({ success := false, error := some (hederaDeployErrorMessage msg) }, st1)
    | .receiptNoContractId _ =>
      ({ success := false,
         error := some (hederaDeployErrorMessage "Failed to get contract ID from receipt") }, st1)
    | .success cid addr txId =>
      ({ success := true, contractId := some cid, contractAddress := some addr,
         transactionId := some txId,
         explorerUrl := some (hederaGetExplorerUrlTx cfg txId) }, st1)

/-- C2: initialize with missing or placeholder operator credentials
returns true and leaves the adapter in read-only mode (no client,
status DISCONNECTED); a subsequent deployContract call returns a
failure result carrying the clear configuration error message
"Hedera client not initialized" instead of throwing. -/
theorem hederaInit_readonly_then_deploy_fails (w w' : HederaWorld)
    (cfg : NetworkConfig) (st : HederaAdapterState)
    (hcreds : hederaCredsMissingOrPlaceholder st.operatorId st.operatorKey = true)
    (hclient : st.client = none) :
    (hederaInit w st).1 = true ∧
    (hederaInit w st).2.status = .disconnected ∧
    (hederaInit w st).2.client = none ∧
    (hederaDeployContract w' cfg (hederaInit w st).2).1.success = false ∧
    (hederaDeployContract w' cfg (hederaInit w st).2).1.error =
      some "Hedera client not initialized" := by
  obtain ⟨oid, okey, cl, stt⟩ := st
  simp only at hcreds hclient
  subst hclient
  have hinit : hederaInit w ⟨oid, okey, none, stt⟩ =
      (true, ⟨oid, okey, none, .disconnected⟩) := by
    unfold hederaInit
    rw [if_pos hcreds]
  have hinit' : hederaInit w' ⟨oid, okey, none, .disconnected⟩ =
      (true, ⟨oid, okey, none, .disconnected⟩) := by
    unfold hederaInit
    rw [if_pos hcreds]
  have hmsg : hederaDeployErrorMessage "Hedera client not initialized" =
      "Hedera client not initialized" := by decide
  have hdeploy : hederaDeployContract w' cfg ⟨oid, okey, none, .disconnected⟩ =
      ({ success := false,
         error := some (hederaDeployErrorMessage "Hedera client not initialized") },
       ⟨oid, okey, none, .disconnected⟩) := by
    unfold hederaDeployContract
    simp only [hinit']
    rfl
  rw [hinit]
  refine ⟨rfl, rfl, rfl, ?_, ?_⟩
  · show (hederaDeployContract w' cfg ⟨oid, okey, none, .disconnected⟩).1.success = false
    rw [hdeploy]
  · show (hederaDeployContract w' cfg ⟨oid, okey, none, .disconnected⟩).1.error =
      some "Hedera client not initialized"
    rw [hdeploy]
    simp only [hmsg]

def sampleHederaTestnetAdapter : HederaAdapterState :=
  hederaAdapterOfConfig sampleHederaTestnetCfg

theorem hederaInit_readonly_then_deploy_fails_witness :
    hederaCredsMissingOrPlaceholder sampleHederaTestnetAdapter.operatorId
      sampleHederaTestnetAdapter.operatorKey = true ∧
    sampleHederaTestnetAdapter.client = none ∧
    (hederaInit {} sampleHederaTestnetAdapter).1 = true ∧
    (hederaInit {} sampleHederaTestnetAdapter).2.status = .disconnected ∧
    (hederaDeployContract {} sampleHederaTestnetCfg
      (hederaInit {} sampleHederaTestnetAdapter).2).1.success = false ∧
    (hederaDeployContract {} sampleHederaTestnetCfg
      (hederaInit {} sampleHederaTestnetAdapter).2).1.error =
      some "Hedera client not initialized" :=
  ⟨by decide, by decide,
   (hederaInit_readonly_then_deploy_fails {} {} sampleHederaTestnetCfg
      sampleHederaTestnetAdapter (by decide) (by decide)).1,
   (hederaInit_readonly_then_deploy_fails {} {} sampleHederaTestnetCfg
      sampleHederaTestnetAdapter (by decide) (by decide)).2.1,
   (hederaInit_readonly_then_deploy_fails {} {} sampleHederaTestnetCfg
      sampleHederaTestnetAdapter (by decide) (by decide)).2.2.2.1,
   (hederaInit_readonly_then_deploy_fails {} {} sampleHederaTestnetCfg
      sampleHederaTestnetAdapter (by decide) (by decide)).2.2.2.2⟩

/-! ## Parameter marshaling switch (claim C4)

The value transformations applied before each
`ContractFunctionParameters.addX` call are recorded symbolically by
the constructor used; `addBytesOfJson v` stands for
`addBytes(Buffer.from(JSON.stringify(value)))` and
`addBytesOfToString v` for `addBytes(Buffer.from(value.toString()))`. -/

inductive AddCall (α : Type) where
  | addString (v : α)
  | addAddress (v : α)
  | addBool (v : α)
  | addUint8 (v : α)
  | addUint16 (v : α)
  | addUint32 (v : α)
  | addUint64 (v : α)
  | addUint256 (v : α)
  | addInt8 (v : α)
  | addInt16 (v : α)
  | addInt32 (v : α)
  | addInt64 (v : α)
  | addInt256 (v : α)
  | addBytes32 (v : α)
  | addStringArray (v : α)
  | addAddressArray (v : α)
  | addBytesOfJson (v : α)
  | addBytesOfToString (v : α)
deriving DecidableEq, Repr

/-- Constructor-argument marshaling switch inside
HederaAdapter.deployContract (network-registry.ts Hedera section,
lines 860-925); the Bool records whether a console warning was
logged on that argument. -/
def hederaEncodeConstructorParam {α : Type} (ty : String) (v : α) : AddCall α × Bool :=
  if ty = "string" then (.addString v, false)
  else if ty = "address" then (.addAddress v, false)
  else if ty = "bool" then (.addBool v, false)
  else if ty = "uint8" then (.addUint8 v, false)
  else if ty = "uint16" then (.addUint16 v, false)
  else if ty = "uint32" then (.addUint32 v, false)
  else if ty = "uint64" then (.addUint64 v, false)
  else if ty = "uint256" then (.addUint256 v, false)
  else if ty = "int8" then (.addInt8 v, false)
  else if ty = "int16" then (.addInt16 v, false)
  else if ty = "int32" then (.addInt32 v, false)
  else if ty = "int64" then (.addInt64 v, false)
  else if ty = "int256" then (.addInt256 v, false)
  else if ty = "bytes32" then (.addBytes32 v, false)
  else if jsIncludes ty "[]" then
    if ty = "string[]" then (.addStringArray v, false)
    else if ty = "address[]" then (.addAddressArray v, false)
    else (.addBytesOfJson v, true)
  else (.addBytesOfToString v, true)

/-- HederaAdapter.createFunctionParameters (lines 1081-1151): the same
dispatch used for function-call arguments, which logs no warnings. -/
def hederaEncodeCallParam {α : Type} (ty : String) (v : α) : AddCall α :=
  (hederaEncodeConstructorParam ty v).1

/-- Marshaling of a full constructor-argument list (arguments are
paired with their ABI input types positionally); the Bool is whether
any warning was logged. -/
def hederaMarshalConstructorArgs {α : Type} (inputTypes : List String) (vals : List α) :
    List (AddCall α) × Bool :=
  let pairs := inputTypes.zip vals
  (pairs.map (fun p => (hederaEncodeConstructorParam p.1 p.2).1),
   pairs.any (fun p => (hederaEncodeConstructorParam p.1 p.2).2))

/-- C4 counterexample: a `string[]` constructor argument does NOT go
through the unsupported-type fallback — it is explicitly handled by
addStringArray inside the default branch, with no warning and no
byte encoding. -/
theorem stringArray_constructor_counterexample :
    hederaMarshalConstructorArgs ["string[]"] [(0 : Nat)] =
      ([AddCall.addStringArray 0], false) ∧
    hederaMarshalConstructorArgs ["string[]"] [(0 : Nat)] ≠
      ([AddCall.addBytesOfJson 0], true) :=
  ⟨by decide, by decide⟩

/-- C4 amended: `string[]` and `address[]` are explicitly supported
(addStringArray/addAddressArray, no warning); only array types other
than those two are byte-encoded (JSON) with a logged warning, and
unrecognized non-array types are byte-encoded (toString) with a
logged warning; no case throws. -/
theorem param_marshaling_fallback {α : Type} (ty : String) (v : α)
    (hne : ty ∉ ["string", "address", "bool", "uint8", "uint16", "uint32",
      "uint64", "uint256", "int8", "int16", "int32", "int64", "int256", "bytes32"]) :
    (hederaEncodeConstructorParam "string[]" v = (.addStringArray v, false)) ∧
    (hederaEncodeConstructorParam "address[]" v = (.addAddressArray v, false)) ∧
    (jsIncludes ty "[]" = true → ty ≠ "string[]" → ty ≠ "address[]" →
      hederaEncodeConstructorParam ty v = (.addBytesOfJson v, true)) ∧
    (jsIncludes ty "[]" = false →
      hederaEncodeConstructorParam ty v = (.addBytesOfToString v, true)) := by
  simp only [List.mem_cons, List.mem_singleton, not_or] at hne
  obtain ⟨h1, h2, h3, h4, h5, h6, h7, h8, h9, h10, h11, h12, h13, h14, -⟩ := hne
  refine ⟨rfl, rfl, fun harr hs ha => ?_, fun hnarr => ?_⟩
  · unfold hederaEncodeConstructorParam
    rw [if_neg h1, if_neg h2, if_neg h3, if_neg h4, if_neg h5, if_neg h6, if_neg h7,
      if_neg h8, if_neg h9, if_neg h10, if_neg h11, if_neg h12, if_neg h13, if_neg h14,
      if_pos harr, if_neg hs, if_neg ha]
  · unfold hederaEncodeConstructorParam
    rw [if_neg h1, if_neg h2, if_neg h3, if_neg h4, if_neg h5, if_neg h6, if_neg h7,
      if_neg h8, if_neg h9, if_neg h10, if_neg h11, if_neg h12, if_neg h13, if_neg h14,
      if_neg (by rw [hnarr]; exact Bool.false_ne_true)]

theorem param_marshaling_fallback_witness :
    (("uint256[]" : String) ∉ ["string", "address", "bool", "uint8", "uint16", "uint32",
      "uint64", "uint256", "int8", "int16", "int32", "int64", "int256", "bytes32"]) ∧
    jsIncludes "uint256[]" "[]" = true ∧
    hederaEncodeConstructorParam "uint256[]" (0 : Nat) = (.addBytesOfJson 0, true) ∧
    hederaEncodeConstructorParam "string[]" (0 : Nat) = (.addStringArray 0, false) ∧
    jsIncludes "mystery" "[]" = false ∧
    hederaEncodeConstructorParam "mystery" (0 : Nat) = (.addBytesOfToString 0, true) :=
  ⟨by decide, by decide,
   (param_marshaling_fallback "uint256[]" (0 : Nat) (by decide)).2.2.1
     (by decide) (by decide) (by decide),
   (param_marshaling_fallback "uint256[]" (0 : Nat) (by decide)).1,
   by decide,
   (param_marshaling_fallback "mystery" (0 : Nat) (by decide)).2.2.2 (by decide)⟩

/-! ## NetworkService.changeNetwork (claims C1, C9)

The NetworkAdapter interface allows `initialize()` to resolve false
or reject, and changeNetwork branches on all three outcomes, so the
adapter's outcome is an oracle indexed by network id.
NetworkFactory.createAdapter's type switch covers both members of
NetworkType, so a registry-present config always yields an adapter. -/

inductive AdapterInitOutcome where
  | succeeded
  | failed
  | threw
deriving DecidableEq, Repr

structure ServiceWorld where
  adapterInit : String → AdapterInitOutcome

/-- Body of NetworkService.changeNetwork (network-service, lines
103-139): `none` models the `Network ... not found in registry` throw
escaping to the outer catch. Everything after the lookup runs inside
the inner try/catch, which converts a false or rejected
`adapter.initialize()` into a plain `false` result — after
setActiveNetwork has already switched the registry. -/
def changeNetworkBody (w : ServiceWorld) (s : RegistryState) (networkId : String) :
    Option (Bool × RegistryState) :=
  match rgGetNetwork s networkId with
  | none => none
  | some _ =>
    let s1 := (rgSetActiveNetwork s networkId).2
    match w.adapterInit networkId with
    | .succeeded => some (true, s1)
    | .failed => some (false, s1)
    | .threw => some (false, s1)

/-- The recursive fallback call `changeNetwork('hedera-testnet')`:
with networkId equal to 'hedera-testnet' its own outer catch returns
false without recursing further. -/
def changeNetworkAtFallback (w : ServiceWorld) (s : RegistryState) : Bool × RegistryState :=
  match changeNetworkBody w s "hedera-testnet" with
  | some r => r
  | none => (false, s)

/-- NetworkService.changeNetwork (lines 102-157). -/
def changeNetwork (w : ServiceWorld) (s : RegistryState) (networkId : String) :
    Bool × RegistryState :=
  match changeNetworkBody w s networkId with
  | some r => r
  | none =>
    if networkId ≠ "hedera-testnet" then changeNetworkAtFallback w s
    else (false, s)

theorem mapHas_of_mapGet {β : Type} (m : List (String × β)) (k : String) (v : β)
    (h : mapGet m k = some v) : mapHas m k = true := by
  induction m with
  | nil => exact absurd h (by simp [mapGet])
  | cons p rest ih =>
    by_cases hp : p.1 = k
    · simp [mapHas, hp]
    · rw [show mapGet (p :: rest) k = mapGet rest k from by simp [mapGet, hp]] at h
      simp [mapHas, hp, ih h]

/-- C9: when the requested network exists in the registry but its
adapter's initialization fails (resolves false or throws),
changeNetwork returns false while the registry's active network has
already been switched to the requested id and is not restored. -/
theorem changeNetwork_not_atomic_on_failure (w : ServiceWorld) (s : RegistryState)
    (networkId : String) (cfg : NetworkConfig)
    (hfound : rgGetNetwork s networkId = some cfg)
    (hfail : w.adapterInit networkId ≠ .succeeded) :
    changeNetwork w s networkId = (false, (rgSetActiveNetwork s networkId).2) ∧
    ((rgSetActiveNetwork s networkId).2).activeNetworkId = some networkId := by
  have hbody : changeNetworkBody w s networkId =
      some (false, (rgSetActiveNetwork s networkId).2) := by
    unfold changeNetworkBody
    rw [hfound]
    cases ho : w.adapterInit networkId
    · exact absurd ho hfail
    · rfl
    · rfl
  constructor
  · unfold changeNetwork
    rw [hbody]
  · have hhas : mapHas s.networks networkId = true :=
      mapHas_of_mapGet s.networks networkId cfg hfound
    unfold rgSetActiveNetwork
    rw [if_pos hhas]

def failingServiceWorld : ServiceWorld :=
  { adapterInit := fun _ => .failed }

set_option maxHeartbeats 4000000 in
theorem changeNetwork_not_atomic_on_failure_witness :
    rgGetNetwork (initialRegistry {}) "ethereum-sepolia" = some sampleSepoliaCfg ∧
    failingServiceWorld.adapterInit "ethereum-sepolia" ≠ .succeeded ∧
    changeNetwork failingServiceWorld (initialRegistry {}) "ethereum-sepolia" =
      (false, (rgSetActiveNetwork (initialRegistry {}) "ethereum-sepolia").2) ∧
    ((rgSetActiveNetwork (initialRegistry {}) "ethereum-sepolia").2).activeNetworkId =
      some "ethereum-sepolia" :=
  ⟨by decide, by decide,
   (changeNetwork_not_atomic_on_failure failingServiceWorld (initialRegistry {})
      "ethereum-sepolia" sampleSepoliaCfg (by decide) (by decide)).1,
   (changeNetwork_not_atomic_on_failure failingServiceWorld (initialRegistry {})
      "ethereum-sepolia" sampleSepoliaCfg (by decide) (by decide)).2⟩

/-! ## changeNetwork fallback behaviour (claim C1) -/

set_option maxHeartbeats 4000000 in
/-- C1 counterexample: for a registry-present network whose adapter
fails to initialize ("ethereum-sepolia" under an all-failing oracle),
changeNetwork returns false but does NOT fall back to switching to
"hedera-testnet" — the active network stays "ethereum-sepolia". -/
theorem changeNetwork_fallback_counterexample :
    (changeNetwork failingServiceWorld (initialRegistry {}) "ethereum-sepolia").1 = false ∧
    (changeNetwork failingServiceWorld (initialRegistry {}) "ethereum-sepolia").2.activeNetworkId =
      some "ethereum-sepolia" ∧
    (changeNetwork failingServiceWorld (initialRegistry {}) "ethereum-sepolia").2.activeNetworkId ≠
      some "hedera-testnet" := by
  refine ⟨?_, ?_, ?_⟩ <;> decide

/-- C1 amended: changeNetwork never throws and always returns a
boolean success flag (every branch below yields a value), but the
hedera-testnet fallback triggers only when the requested networkId is
NOT found in the registry (the outer catch); when the network exists
and its adapter fails to initialize, changeNetwork returns false with
the active network left switched to the requested id — no fallback. -/
theorem changeNetwork_amended (w : ServiceWorld) (s : RegistryState) (networkId : String) :
    (rgGetNetwork s networkId = none → networkId ≠ "hedera-testnet" →
      changeNetwork w s networkId = changeNetworkAtFallback w s) ∧
    (rgGetNetwork s networkId = none → networkId = "hedera-testnet" →
      changeNetwork w s networkId = (false, s)) ∧
    (∀ cfg, rgGetNetwork s networkId = some cfg →
      (w.adapterInit networkId = .succeeded →
        changeNetwork w s networkId = (true, (rgSetActiveNetwork s networkId).2)) ∧
      (w.adapterInit networkId ≠ .succeeded →
        changeNetwork w s networkId = (false, (rgSetActiveNetwork s networkId).2))) := by
  refine ⟨fun hnone hne => ?_, fun hnone heq => ?_, fun cfg hfound => ⟨fun hok => ?_, fun hfail => ?_⟩⟩
  · have hbody : changeNetworkBody w s networkId = none := by
      unfold changeNetworkBody
      rw [hnone]
    unfold changeNetwork
    rw [hbody, if_pos hne]
  · have hbody : changeNetworkBody w s networkId = none := by
      unfold changeNetworkBody
      rw [hnone]
    unfold changeNetwork
    rw [hbody, if_neg (by intro hc; exact hc heq)]
  · have hbody : changeNetworkBody w s networkId =
        some (true, (rgSetActiveNetwork s networkId).2) := by
      unfold changeNetworkBody
      rw [hfound, hok]
    unfold changeNetwork
    rw [hbody]
  · have hbody : changeNetworkBody w s networkId =
        some (false, (rgSetActiveNetwork s networkId).2) := by
      unfold changeNetworkBody
      rw [hfound]
      cases ho : w.adapterInit networkId
      · exact absurd ho hfail
      · rfl
      · rfl
    unfold changeNetwork
    rw [hbody]

def succeedingServiceWorld : ServiceWorld :=
  { adapterInit := fun _ => .succeeded }

set_option maxHeartbeats 4000000 in
theorem changeNetwork_amended_witness :
    rgGetNetwork (initialRegistry {}) "no-such-network" = none ∧
    ("no-such-network" : String) ≠ "hedera-testnet" ∧
    changeNetwork failingServiceWorld (initialRegistry {}) "no-such-network" =
      changeNetworkAtFallback failingServiceWorld (initialRegistry {}) ∧
    rgGetNetwork (initialRegistry {}) "ethereum-sepolia" = some sampleSepoliaCfg ∧
    succeedingServiceWorld.adapterInit "ethereum-sepolia" = .succeeded ∧
    changeNetwork succeedingServiceWorld (initialRegistry {}) "ethereum-sepolia" =
      (true, (rgSetActiveNetwork (initialRegistry {}) "ethereum-sepolia").2) :=
  ⟨by decide, by decide,
   (changeNetwork_amended failingServiceWorld (initialRegistry {}) "no-such-network").1
     (by decide) (by decide),
   by decide, by decide,
   ((changeNetwork_amended succeedingServiceWorld (initialRegistry {}) "ethereum-sepolia").2.2
     sampleSepoliaCfg (by decide)).1 (by decide)⟩
